import Mathlib

/-!
Verification of the OptionSense multi-source price resolution and
signal-derivation pipeline.

The Python modules `backend/algorithms.py`, `backend/live_data.py`,
`backend/live_stock_screener.py`, `backend/stock_screener.py` and
`backend/data_provider.py` are shallowly embedded below: Python floats are
modelled as rationals, Python `round` (banker's rounding, half to even) is
modelled by `pyRound`, scraping/HTTP adapters are modelled by the
`Option`-valued outcome they deliver to the caller, and the few places the
code draws random numbers are abstracted into oracle parameters.
-/

namespace OptionSense

/-- Python's built-in `round` restricted to rationals: round half to even
(banker's rounding), as CPython does for `round(x)` and, digit-shifted, for
`round(x, n)`. -/
def pyRound (q : ℚ) : ℤ :=
  let f : ℤ := Rat.floor q
  let r : ℚ := q - (f : ℚ)
  if r < 1/2 then f
  else if 1/2 < r then f + 1
  else if f % 2 = 0 then f else f + 1

/-- Python `round(q, 2)`. -/
def round2 (q : ℚ) : ℚ := (pyRound (q * 100) : ℚ) / 100

/-- Python `round(q, 1)`. -/
def round1 (q : ℚ) : ℚ := (pyRound (q * 10) : ℚ) / 10

/-! ## algorithms.py -/

/-- Colour constants from `algorithms.py`. -/
def COLOR_STRONG_GREEN : String := "#00E676"

def COLOR_LIGHT_GREEN : String := "#69F0AE"

def COLOR_STRONG_RED : String := "#FF5252"

def COLOR_LIGHT_RED : String := "#FF8A80"

def COLOR_GREY : String := "#9E9E9E"

/-- `algorithms.get_relevant_strikes`: `atm = round(spot/step)*step`, then the
strikes `atm + i*step` for `i` in `-5..5`. -/
def get_relevant_strikes (current_spot_price : ℚ) (step : ℤ := 50) : List ℤ :=
  let atm : ℤ := pyRound (current_spot_price / (step : ℚ)) * step
  (List.range 11).map (fun i : ℕ => atm + ((i : ℤ) - 5) * step)

/-- `algorithms.get_atm_strike`. -/
def get_atm_strike (current_spot_price : ℚ) (step : ℤ := 50) : ℤ :=
  pyRound (current_spot_price / (step : ℚ)) * step

/-- `algorithms.calculate_oi_signal`: returns
`(signal_message, status_label, bg_color)`, evaluating the branches in the
source order with the first match winning. -/
def calculate_oi_signal (call_coi put_coi : ℤ) : String × String × String :=
  if call_coi < 0 ∧ put_coi > 0 then
    ("Short Covering: Call Writers Exiting, Put Writers Entering",
     "SHORT COVERING", COLOR_STRONG_GREEN)
  else if call_coi > 0 ∧ put_coi < 0 then
    ("Long Unwinding: Call Writers Entering, Put Writers Exiting",
     "LONG UNWINDING", COLOR_STRONG_RED)
  else if call_coi > 0 ∧ put_coi > 0 then
    if put_coi > call_coi then
      ("Mild Bullish: Support Building with Put Writing",
       "MILD BULLISH", COLOR_LIGHT_GREEN)
    else
      ("Mild Bearish: Resistance Building with Call Writing",
       "MILD BEARISH", COLOR_LIGHT_RED)
  else if call_coi < 0 ∧ put_coi < 0 then
    ("Uncertain: Both Sides Unwinding, Expect Volatility",
     "UNCERTAIN", COLOR_GREY)
  else
    ("Neutral: No Significant OI Change", "NEUTRAL", COLOR_GREY)

/-- The score accumulation of `algorithms.calculate_sentiment_score`
(the sequence of `score +=`/`score -=` statements followed by the clamp).
Python literals `1.2` and `0.7` are the rationals `6/5` and `7/10`. -/
def sentiment_score_value (pcr spot_price vwap : ℚ) (oi_status : String) : ℤ :=
  let score : ℤ := 5
  let score := if pcr > 6/5 then score + 2 else if pcr < 7/10 then score - 2 else score
  let score := if spot_price > vwap then score + 2 else score - 2
  let score :=
    if oi_status = "SHORT COVERING" then score + 3
    else if oi_status = "LONG UNWINDING" then score - 3
    else if oi_status = "MILD BULLISH" then score + 1
    else if oi_status = "MILD BEARISH" then score - 1
    else score
  max 0 (min 10 score)

/-- `algorithms.calculate_sentiment_score`: composite sentiment on the 0-10
scale, returning `(score, label, color)`. -/
def calculate_sentiment_score (pcr spot_price vwap : ℚ) (oi_status : String) :
    ℤ × String × String :=
  let score := sentiment_score_value pcr spot_price vwap oi_status
  if score ≥ 7 then (score, "STRONG BUY", COLOR_STRONG_GREEN)
  else if score ≤ 3 then (score, "STRONG SELL", COLOR_STRONG_RED)
  else (score, "NEUTRAL", COLOR_GREY)

/-- `algorithms.get_bar_color_for_oi`. -/
def get_bar_color_for_oi (oi_change : ℤ) (is_call : Bool) : String :=
  if oi_change = 0 then "GREY"
  else if is_call then (if oi_change < 0 then "GREEN" else "RED")
  else (if oi_change > 0 then "GREEN" else "RED")

/-! ## live_data.py -/

/-- The consecutive price differences of `live_data.calculate_rsi`:
`deltas = [prices[i] - prices[i-1] for i in range(1, len(prices))]`. -/
def rsi_deltas (prices : List ℚ) : List ℚ :=
  List.zipWith (fun prev next => next - prev) prices prices.tail

/-- `avg_gain = sum(gains[-period:]) / period` of `live_data.calculate_rsi`;
`gains[-period:]` is `gains.drop (gains.length - period)` (the length guard in
`calculate_rsi` makes `period ≤ gains.length`, and every call site uses the
default `period = 14 ≥ 1`). -/
def rsi_avg_gain (prices : List ℚ) (period : ℕ) : ℚ :=
  let gains := (rsi_deltas prices).map (fun d => if d > 0 then d else 0)
  (gains.drop (gains.length - period)).sum / (period : ℚ)

/-- `avg_loss = sum(losses[-period:]) / period` of `live_data.calculate_rsi`. -/
def rsi_avg_loss (prices : List ℚ) (period : ℕ) : ℚ :=
  let losses := (rsi_deltas prices).map (fun d => if d < 0 then -d else 0)
  (losses.drop (losses.length - period)).sum / (period : ℚ)

/-- `live_data.calculate_rsi`.  Prices are rationals; the final `else` branch
returns `round(rsi, 1)` — rounded to one decimal place. -/
def calculate_rsi (prices : List ℚ) (period : ℕ := 14) : ℚ :=
  if prices.length < period + 1 then 50
  else if rsi_avg_loss prices period = 0 then 100
  else
    let rs := rsi_avg_gain prices period / rsi_avg_loss prices period
    round1 (100 - 100 / (1 + rs))

/-- One upstream adapter outcome for the dashboard price resolver of
`live_data.get_live_dashboard_data`: the `(price, change, change_pct)` triple
the adapter hands back, or `none` when the adapter reported unavailability
(HTTP failure, parse failure, exception — all are caught inside the adapter
and surface as `None`/empty data in the Python code). -/
structure Quote where
  price : ℚ
  change : ℚ
  change_pct : ℚ
deriving DecidableEq, Repr

/-- The accumulated state of the sequential fallback in
`live_data.get_live_dashboard_data`: current price/change/change_pct, the
`data_source` variable, and the list of sources actually contacted. -/
structure Resolution where
  price : ℚ
  change : ℚ
  change_pct : ℚ
  data_source : Option String
  consulted : List String
deriving DecidableEq, Repr

/-- Initial resolver state: `current_price = 0.0`, `price_change = 0.0`,
`price_change_pct = 0.0`, `data_source = None`. -/
def resolveStart : Resolution := ⟨0, 0, 0, none, []⟩

/-- One fallback step for the Moneycontrol / Google Finance / Yahoo branches
of `get_live_dashboard_data`: the source is contacted only while
`current_price == 0`; a delivered quote overwrites price, change, change_pct
and sets `data_source` to this source's tag (the Python code sets the tag
whenever the adapter returned data, even when the delivered price is 0). -/
def tryTagged (r : Resolution) (tag : String) (res : Option Quote) : Resolution :=
  if r.price = 0 then
    match res with
    | some q => ⟨q.price, q.change, q.change_pct, some tag, r.consulted ++ [tag]⟩
    | none => { r with consulted := r.consulted ++ [tag] }
  else r

/-- The final NSE/jugaad-data branch of `get_live_dashboard_data`: identical
guard and field updates, but the Python branch never assigns `data_source`. -/
def tryUntagged (r : Resolution) (tag : String) (res : Option Quote) : Resolution :=
  if r.price = 0 then
    match res with
    | some q =>
        ⟨q.price, q.change, q.change_pct, r.data_source, r.consulted ++ [tag]⟩
    | none => { r with consulted := r.consulted ++ [tag] }
  else r

/-- The price-resolution pass of `live_data.get_live_dashboard_data`
(lines 918-977): Moneycontrol, then Google Finance, then Yahoo Finance, then
the NSE/jugaad-data fallback, each guarded by `current_price == 0`. -/
def resolve_dashboard_price (mc gf yf nse : Option Quote) : Resolution :=
  let r := tryTagged resolveStart "moneycontrol" mc
  let r := tryTagged r "google_finance" gf
  let r := tryTagged r "yahoo_finance" yf
  tryUntagged r "nse_jugaad" nse

/-- A point in IST time, with the fields the two market-open checks read.
`weekday` follows Python `datetime.weekday()` (Monday = 0 .. Sunday = 6);
`secondsOfDay` is the time of day in seconds (Python compares `time` objects,
which is the same ordering). -/
structure ISTNow where
  weekday : ℕ
  day : ℕ
  month : ℕ
  year : ℤ
  secondsOfDay : ℕ
deriving DecidableEq, Repr

/-- The `market_active` computation of `live_data.get_live_dashboard_data`
(lines 1000-1006): `(not is_weekend or is_budget_day) and is_open_time`, with
`is_budget_day = (day == 1 and month == 2)` — February 1 of any year. -/
def live_market_active (now : ISTNow) : Bool :=
  let is_weekend := decide (now.weekday ≥ 5)
  let is_budget_day := decide (now.day = 1 ∧ now.month = 2)
  let is_open_time :=
    decide (9 * 3600 + 15 * 60 ≤ now.secondsOfDay ∧ now.secondsOfDay ≤ 15 * 3600 + 30 * 60)
  (!is_weekend || is_budget_day) && is_open_time

/-- The `market_status` field of the live dashboard snapshot. -/
def live_market_status (now : ISTNow) : String :=
  if live_market_active now then "OPEN" else "CLOSED"

/-! ## data_provider.py -/

/-- `MarketDataProvider._is_market_open`: same 09:15-15:30 weekday window,
but its budget-day exception compares the full date against the single
hard-coded date 2026-02-01. -/
def mock_is_market_open (now : ISTNow) : Bool :=
  let is_budget_day := decide (now.year = 2026 ∧ now.month = 2 ∧ now.day = 1)
  if now.weekday > 4 ∧ is_budget_day = false then false
  else
    decide (9 * 3600 + 15 * 60 ≤ now.secondsOfDay ∧ now.secondsOfDay ≤ 15 * 3600 + 30 * 60)

/-- The `market_status` field of `MarketDataProvider.get_dashboard_data`
(the mock snapshot served when the live dashboard fetch raises). -/
def mock_market_status (now : ISTNow) : String :=
  if mock_is_market_open now then "OPEN" else "CLOSED"

/-- One strike row of `MarketDataProvider._generate_oi_changes`. -/
structure OIRow where
  strike : ℤ
  ce_change : ℤ
  pe_change : ℤ
  ce_bar_color : String
  pe_bar_color : String
  is_atm : Bool
deriving DecidableEq, Repr

/-- `MarketDataProvider._generate_oi_changes`: builds one row per relevant
strike.  The random OI-change magnitudes drawn per strike are abstracted into
the oracles `ce` and `pe`; colours and `is_atm` are computed exactly as in the
source (`strike == atm`). -/
def generate_oi_changes (atm step : ℤ) (ce pe : ℤ → ℤ) : List OIRow :=
  (get_relevant_strikes (atm : ℚ) step).map (fun s =>
    ⟨s, ce s, pe s, get_bar_color_for_oi (ce s) true,
     get_bar_color_for_oi (pe s) false, decide (s = atm)⟩)

/-! ## live_stock_screener.py and stock_screener.py -/

/-- The technical-indicator inputs of the screener scoring pass (produced by
`generate_mock_indicators` in the live screener and drawn randomly in the mock
screener; the claims quantify over them). -/
structure Indicators where
  rsi : ℚ
  macd : String
  above_20dma : Bool
  above_50dma : Bool
  above_200dma : Bool
  volume_surge : ℚ
deriving DecidableEq, Repr

/-- The composite-score computation shared verbatim by
`LiveStockScreener._process_stock` (live_stock_screener.py lines 53-98) and
`StockScreener._generate_stock_data` (stock_screener.py lines 137-172):
start at 50, add the RSI / MACD / moving-average / volume / Fibonacci
contributions in source order, clamp to [0, 100]. -/
def screener_score (ind : Indicators) (change_pct : ℚ) (fib_signal : String) : ℤ :=
  let score : ℤ := 50
  let score := if ind.rsi < 30 then score + 15 else if ind.rsi > 70 then score - 15 else score
  let score :=
    if ind.macd = "BULLISH" then score + 20
    else if ind.macd = "BEARISH" then score - 20 else score
  let score := if ind.above_20dma then score + 5 else score
  let score := if ind.above_50dma then score + 5 else score
  let score := if ind.above_200dma then score + 5 else score
  let score :=
    if ind.volume_surge > 2 then (if change_pct > 0 then score + 10 else score - 10)
    else score
  let score :=
    if fib_signal = "BULLISH" then score + 10
    else if fib_signal = "BEARISH" then score - 10 else score
  max 0 (min 100 score)

/-- Recommendation tiers of `LiveStockScreener._process_stock`
(live_stock_screener.py lines 100-114). -/
def live_recommendation (score : ℤ) : String :=
  if score ≥ 70 then "STRONG BUY"
  else if score ≥ 55 then "BUY"
  else if score ≥ 45 then "HOLD"
  else if score ≥ 30 then "SELL"
  else "STRONG SELL"

/-- Recommendation tiers of `StockScreener._generate_stock_data`
(stock_screener.py lines 178-192): note the branch order `≥70, ≥55, ≤30, ≤45,
else HOLD`. -/
def mock_recommendation (score : ℤ) : String :=
  if score ≥ 70 then "STRONG BUY"
  else if score ≥ 55 then "BUY"
  else if score ≤ 30 then "STRONG SELL"
  else if score ≤ 45 then "SELL"
  else "HOLD"

/-- The tier table exactly as the specification words it: “score >= 70 STRONG
BUY, >= 55 BUY, >= 45 HOLD, >= 30 SELL, else STRONG SELL”.  Kept as a separate
definition so the code's two tier functions can be compared against it. -/
def spec_tier (score : ℤ) : String :=
  if score ≥ 70 then "STRONG BUY"
  else if score ≥ 55 then "BUY"
  else if score ≥ 45 then "HOLD"
  else if score ≥ 30 then "SELL"
  else "STRONG SELL"

/-- Trading levels: entry/target/stoploss prices and the risk-reward field.
`risk_reward = none` models the string `"N/A"`; `risk_reward = some r` models
the string `"1:{r}"`. -/
structure Levels where
  entry : ℚ
  target : ℚ
  stoploss : ℚ
  risk_reward : Option ℚ
deriving DecidableEq, Repr

/-- The trading-levels computation of `LiveStockScreener._process_stock`
(lines 116-135): prices are `round(price*k, 2)`; the risk-reward number is
`round(reward/risk, 1)` when `risk > 0`, else `"N/A"`. -/
def trading_levels (price : ℚ) (recommendation : String) : Levels :=
  if recommendation = "STRONG BUY" ∨ recommendation = "BUY" then
    let entry_price := round2 (price * (995/1000))
    let target_price := round2 (price * (103/100))
    let stoploss_price := round2 (price * (985/1000))
    let risk := entry_price - stoploss_price
    let reward := target_price - entry_price
    ⟨entry_price, target_price, stoploss_price,
     if risk > 0 then some (round1 (reward / risk)) else none⟩
  else if recommendation = "STRONG SELL" ∨ recommendation = "SELL" then
    let entry_price := round2 (price * (1005/1000))
    let target_price := round2 (price * (97/100))
    let stoploss_price := round2 (price * (1015/1000))
    let risk := stoploss_price - entry_price
    let reward := entry_price - target_price
    ⟨entry_price, target_price, stoploss_price,
     if risk > 0 then some (round1 (reward / risk)) else none⟩
  else
    ⟨round2 price, round2 price, round2 price, none⟩

/-- The per-stock price-refresh pass of `LiveStockScreener.get_screener_data`
(lines 311-328): after a higher-priority source delivered `new_price`, BUY and
SELL tiers get recomputed entry/target/stoploss but a hard-coded
`"risk_reward": "1:3.0"`, and every other tier keeps its old levels. -/
def refresh_trading_levels (new_price : ℚ) (recommendation : String)
    (old : Levels) : Levels :=
  if recommendation = "STRONG BUY" ∨ recommendation = "BUY" then
    ⟨round2 (new_price * (995/1000)), round2 (new_price * (103/100)),
     round2 (new_price * (985/1000)), some 3⟩
  else if recommendation = "STRONG SELL" ∨ recommendation = "SELL" then
    ⟨round2 (new_price * (1005/1000)), round2 (new_price * (97/100)),
     round2 (new_price * (1015/1000)), some 3⟩
  else old

/-- Trading levels of the mock screener `StockScreener._generate_stock_data`
(stock_screener.py lines 193-211): the HOLD branch sets entry, target and
stoploss to Python `None`, so the three prices are `Option ℚ` here;
`risk_reward = none` models `"N/A"` and `some r` models `"1:{r}"` as in
`Levels`. -/
structure MockLevels where
  entry : Option ℚ
  target : Option ℚ
  stoploss : Option ℚ
  risk_reward : Option ℚ
deriving DecidableEq, Repr

/-- The trading-levels computation of `StockScreener._generate_stock_data`:
BUY entry is `round(price*0.998, 2)` and SELL entry `round(price*1.002, 2)`
(targets and stoplosses as in the live screener), `risk_reward` is the
constant string `"1:2"` for both, and HOLD has no levels at all. -/
def mock_trading_levels (price : ℚ) (recommendation : String) : MockLevels :=
  if recommendation = "STRONG BUY" ∨ recommendation = "BUY" then
    ⟨some (round2 (price * (998/1000))), some (round2 (price * (103/100))),
     some (round2 (price * (985/1000))), some 2⟩
  else if recommendation = "STRONG SELL" ∨ recommendation = "SELL" then
    ⟨some (round2 (price * (1002/1000))), some (round2 (price * (97/100))),
     some (round2 (price * (1015/1000))), some 2⟩
  else
    ⟨none, none, none, none⟩

/-- Cache state of a `LiveStockScreener` instance: `_cache` (processed entries,
abstracted to their identities) and `_last_refresh` (seconds). -/
structure ScreenerState where
  cache : List ℕ
  last_refresh : Option ℕ
deriving DecidableEq, Repr

/-- `LiveStockScreener._should_refresh` (lines 28-32), with
`_cache_duration = 60`: `(now - last_refresh).seconds > 60`, where Python's
`timedelta.seconds` is the elapsed time modulo one day.  This method is
defined in the source but never called. -/
def should_refresh (st : ScreenerState) (now : ℕ) : Bool :=
  match st.last_refresh with
  | none => true
  | some t => decide ((now - t) % 86400 > 60)

/-- Result of one `LiveStockScreener.get_screener_data` call (data-acquisition
phase, lines 211-258): the entries served, the `data_source` tag, the new
cache state, and how many times the bulk upstream fetch
(`fetch_all_equity_stocks`) ran during the call. -/
structure FetchOutcome where
  stocks : List ℕ
  data_source : String
  state : ScreenerState
  bulk_fetches : ℕ
deriving DecidableEq, Repr

/-- The data-acquisition phase of `LiveStockScreener.get_screener_data`:
the code refreshes the NSE session and invokes the bulk upstream fetch
unconditionally on every call (no freshness check); the cache is consulted
only when the live fetch produced no entries, then the last-close data, then
mock data.  `live` is the processed result of this call's upstream fetch
(empty when the upstream failed). -/
def get_screener_data (live last_close mock : List ℕ) (st : ScreenerState)
    (now : ℕ) : FetchOutcome :=
  if live ≠ [] then ⟨live, "LIVE", ⟨live, some now⟩, 1⟩
  else if st.cache ≠ [] then ⟨st.cache, "CACHED", st, 1⟩
  else if last_close ≠ [] then ⟨last_close, "LAST CLOSE", ⟨last_close, st.last_refresh⟩, 1⟩
  else ⟨mock, "MOCK", ⟨mock, st.last_refresh⟩, 1⟩

/-! ## Helper lemmas -/

/-- Batteries' executable `Rat.floor` agrees with Mathlib's `Int.floor`. -/
theorem ratFloor_eq_floor (q : ℚ) : (Rat.floor q : ℤ) = ⌊q⌋ := by
  rw [Rat.floor_def]
  unfold Rat.floor
  split
  · rename_i h
    rw [h]
    simp
  · rfl

/-- Python `round` fixes integers. -/
theorem pyRound_intCast (k : ℤ) : pyRound (k : ℚ) = k := by
  simp [pyRound, ratFloor_eq_floor]

/-- The first projection of the sentiment triple is the accumulated score. -/
theorem calculate_sentiment_score_fst (pcr spot vwap : ℚ) (oi : String) :
    (calculate_sentiment_score pcr spot vwap oi).1 =
      sentiment_score_value pcr spot vwap oi := by
  unfold calculate_sentiment_score
  dsimp only
  split_ifs <;> rfl

/-- Additive form of the sentiment score accumulation. -/
theorem sentiment_score_value_eq (pcr spot vwap : ℚ) (oi : String) :
    sentiment_score_value pcr spot vwap oi =
      max 0 (min 10 (5 + (if pcr > 6/5 then 2 else if pcr < 7/10 then -2 else 0)
        + (if spot > vwap then 2 else -2)
        + (if oi = "SHORT COVERING" then 3
           else if oi = "LONG UNWINDING" then -3
           else if oi = "MILD BULLISH" then 1
           else if oi = "MILD BEARISH" then -1 else 0))) := by
  unfold sentiment_score_value
  dsimp only
  split_ifs <;> omega

/-- An `x += a` / `x -= b` two-way branch as a single added term. -/
theorem ite_step_pm (c1 c2 : Prop) [Decidable c1] [Decidable c2] (x a b : ℤ) :
    (if c1 then x + a else if c2 then x - b else x) =
      x + (if c1 then a else if c2 then -b else 0) := by
  split_ifs <;> omega

/-- An `x += a` one-way branch as a single added term. -/
theorem ite_step_add (c : Prop) [Decidable c] (x a : ℤ) :
    (if c then x + a else x) = x + (if c then a else 0) := by
  split_ifs <;> omega

/-- The volume-surge branch (`+= 10` when rising, `-= 10` otherwise) as a
single added term. -/
theorem ite_step_vol (c d : Prop) [Decidable c] [Decidable d] (x : ℤ) :
    (if c then (if d then x + 10 else x - 10) else x) =
      x + (if c then (if d then 10 else -10) else 0) := by
  split_ifs <;> omega

/-- Additive form of the screener composite score shared by the two
screeners. -/
theorem screener_score_eq (ind : Indicators) (cp : ℚ) (fib : String) :
    screener_score ind cp fib =
      max 0 (min 100 (50
        + (if ind.rsi < 30 then 15 else if ind.rsi > 70 then -15 else 0)
        + (if ind.macd = "BULLISH" then 20 else if ind.macd = "BEARISH" then -20 else 0)
        + (if ind.above_20dma then 5 else 0)
        + (if ind.above_50dma then 5 else 0)
        + (if ind.above_200dma then 5 else 0)
        + (if ind.volume_surge > 2 then (if cp > 0 then 10 else -10) else 0)
        + (if fib = "BULLISH" then 10 else if fib = "BEARISH" then -10 else 0))) := by
  unfold screener_score
  dsimp only
  rw [ite_step_pm, ite_step_pm, ite_step_add, ite_step_add, ite_step_add,
    ite_step_vol, ite_step_pm]

/-- A `tryTagged` step after an earlier success leaves the state unchanged. -/
theorem tryTagged_skip (r : Resolution) (tag : String) (res : Option Quote)
    (hr : r.price ≠ 0) : tryTagged r tag res = r := by
  simp [tryTagged, hr]

/-- A `tryTagged` step while the price is still 0 takes the delivered quote
and tags the source. -/
theorem tryTagged_step (r : Resolution) (tag : String) (q : Quote)
    (hr : r.price = 0) :
    tryTagged r tag (some q) =
      ⟨q.price, q.change, q.change_pct, some tag, r.consulted ++ [tag]⟩ := by
  simp [tryTagged, hr]

/-- A `tryTagged` step whose source is unavailable or delivers price 0 leaves
the price at 0 and records the consultation. -/
theorem tryTagged_fail (r : Resolution) (tag : String) (res : Option Quote)
    (hr : r.price = 0) (hres : ∀ q, res = some q → q.price = 0) :
    (tryTagged r tag res).price = 0 ∧
    (tryTagged r tag res).consulted = r.consulted ++ [tag] := by
  rcases res with _ | q
  · simp [tryTagged, hr]
  · simp [tryTagged, hr, hres q rfl]

/-- A `tryUntagged` step after an earlier success leaves the state
unchanged. -/
theorem tryUntagged_skip (r : Resolution) (tag : String) (res : Option Quote)
    (hr : r.price ≠ 0) : tryUntagged r tag res = r := by
  simp [tryUntagged, hr]

/-- A `tryUntagged` step while the price is still 0 takes the delivered quote
but does not touch `data_source`. -/
theorem tryUntagged_step (r : Resolution) (tag : String) (q : Quote)
    (hr : r.price = 0) :
    tryUntagged r tag (some q) =
      ⟨q.price, q.change, q.change_pct, r.data_source, r.consulted ++ [tag]⟩ := by
  simp [tryUntagged, hr]

/-- A `tryUntagged` step whose source is unavailable or delivers price 0
leaves the price at 0 and records the consultation. -/
theorem tryUntagged_fail (r : Resolution) (tag : String) (res : Option Quote)
    (hr : r.price = 0) (hres : ∀ q, res = some q → q.price = 0) :
    (tryUntagged r tag res).price = 0 ∧
    (tryUntagged r tag res).consulted = r.consulted ++ [tag] := by
  rcases res with _ | q
  · simp [tryUntagged, hr]
  · simp [tryUntagged, hr, hres q rfl]

/-! ## Claim C3 -/

/-- C3: the composite sentiment score is always in [0, 10]; holding the
OI-shift status fixed it is monotone non-decreasing in PCR and in
(spot − VWAP); the score is 5 plus the claimed increments, clamped; and the
label is STRONG BUY iff score ≥ 7, STRONG SELL iff score ≤ 3, else NEUTRAL. -/
theorem c3_sentiment_score (pcr pcr2 spot spot2 vwap vwap2 : ℚ) (oi : String)
    (hpcr : pcr ≤ pcr2) (hvw : spot - vwap ≤ spot2 - vwap2) :
    (0 ≤ (calculate_sentiment_score pcr spot vwap oi).1 ∧
     (calculate_sentiment_score pcr spot vwap oi).1 ≤ 10) ∧
    (calculate_sentiment_score pcr spot vwap oi).1 ≤
      (calculate_sentiment_score pcr2 spot vwap oi).1 ∧
    (calculate_sentiment_score pcr spot vwap oi).1 ≤
      (calculate_sentiment_score pcr spot2 vwap2 oi).1 ∧
    (calculate_sentiment_score pcr spot vwap oi).1 =
      max 0 (min 10 (5 + (if pcr > 6/5 then 2 else if pcr < 7/10 then -2 else 0)
        + (if spot > vwap then 2 else -2)
        + (if oi = "SHORT COVERING" then 3
           else if oi = "LONG UNWINDING" then -3
           else if oi = "MILD BULLISH" then 1
           else if oi = "MILD BEARISH" then -1 else 0))) ∧
    ((calculate_sentiment_score pcr spot vwap oi).2.1 = "STRONG BUY" ↔
      7 ≤ (calculate_sentiment_score pcr spot vwap oi).1) ∧
    ((calculate_sentiment_score pcr spot vwap oi).2.1 = "STRONG SELL" ↔
      (calculate_sentiment_score pcr spot vwap oi).1 ≤ 3) ∧
    ((calculate_sentiment_score pcr spot vwap oi).2.1 = "NEUTRAL" ↔
      (3 < (calculate_sentiment_score pcr spot vwap oi).1 ∧
       (calculate_sentiment_score pcr spot vwap oi).1 < 7)) := by
  refine ⟨?_, ?_, ?_, ?_, ?_, ?_, ?_⟩
  · simp only [calculate_sentiment_score_fst, sentiment_score_value_eq]
    omega
  · simp only [calculate_sentiment_score_fst, sentiment_score_value_eq]
    have ht : (if pcr > 6/5 then (2:ℤ) else if pcr < 7/10 then -2 else 0) ≤
        (if pcr2 > 6/5 then 2 else if pcr2 < 7/10 then -2 else 0) := by
      split_ifs <;> first | omega | linarith
    omega
  · simp only [calculate_sentiment_score_fst, sentiment_score_value_eq]
    have ht : (if spot > vwap then (2:ℤ) else -2) ≤
        (if spot2 > vwap2 then 2 else -2) := by
      split_ifs <;> first | omega | linarith
    omega
  · simp only [calculate_sentiment_score_fst, sentiment_score_value_eq]
  · unfold calculate_sentiment_score
    dsimp only
    split_ifs <;> simp_all
  · unfold calculate_sentiment_score
    dsimp only
    split_ifs <;> simp_all <;> omega
  · unfold calculate_sentiment_score
    dsimp only
    split_ifs <;> simp_all

/-- Witness for C3 at PCR 1 ≤ 2, spot−VWAP 1 ≤ 2, OI status SHORT COVERING. -/
theorem c3_sentiment_score_witness :
    (0 ≤ (calculate_sentiment_score 1 100 99 "SHORT COVERING").1 ∧
     (calculate_sentiment_score 1 100 99 "SHORT COVERING").1 ≤ 10) ∧
    (calculate_sentiment_score 1 100 99 "SHORT COVERING").1 ≤
      (calculate_sentiment_score 2 100 99 "SHORT COVERING").1 :=
  have h := c3_sentiment_score 1 2 100 101 99 99 "SHORT COVERING"
    (by norm_num) (by norm_num)
  ⟨h.1, h.2.1⟩

/-! ## Claim C5 -/

/-- C5: for every spot price and positive step, `get_relevant_strikes` returns
exactly 11 strictly increasing multiples of `step` centred on
`atm = round(spot/step)*step` (5 below through 5 above); concretely, for
step 50 and spot 25362 the ATM is 25350 and the strikes run 25100..25600 in
steps of 50, and in the generated OI-details rows `is_atm` is true only for
the ATM strike. -/
theorem c5_relevant_strikes (spot : ℚ) (step : ℤ) (hstep : 0 < step)
    (ce pe : ℤ → ℤ) :
    (get_relevant_strikes spot step).length = 11 ∧
    List.Pairwise (· < ·) (get_relevant_strikes spot step) ∧
    (∀ s ∈ get_relevant_strikes spot step, step ∣ s) ∧
    (∀ i < 11, (get_relevant_strikes spot step).getD i 0 =
      get_atm_strike spot step + ((i : ℤ) - 5) * step) ∧
    (get_relevant_strikes spot step).getD 5 0 = get_atm_strike spot step ∧
    get_atm_strike (25362 : ℚ) 50 = 25350 ∧
    get_relevant_strikes (25362 : ℚ) 50 =
      [25100, 25150, 25200, 25250, 25300, 25350, 25400, 25450, 25500, 25550,
       25600] ∧
    ((generate_oi_changes 25350 50 ce pe).map (fun r => (r.strike, r.is_atm))) =
      [(25100, false), (25150, false), (25200, false), (25250, false),
       (25300, false), (25350, true), (25400, false), (25450, false),
       (25500, false), (25550, false), (25600, false)] := by
  have h507 : pyRound ((25362 : ℚ) / 50) = 507 := by
    norm_num [pyRound, ratFloor_eq_floor]
  have h25350 : pyRound ((25350 : ℚ) / 50) = 507 := by
    norm_num [pyRound, ratFloor_eq_floor]
  refine ⟨?_, ?_, ?_, ?_, ?_, ?_, ?_, ?_⟩
  · simp only [get_relevant_strikes, List.length_map, List.length_range]
  · simp only [get_relevant_strikes]
    refine (List.pairwise_lt_range 11).map _ ?_
    intro a b hab
    have hab2 : (a : ℤ) < (b : ℤ) := by exact_mod_cast hab
    have h1 : ((a : ℤ) - 5) * step < ((b : ℤ) - 5) * step :=
      mul_lt_mul_of_pos_right (by omega) hstep
    omega
  · intro s hs
    simp only [get_relevant_strikes, List.mem_map, List.mem_range] at hs
    obtain ⟨i, _, rfl⟩ := hs
    exact ⟨pyRound (spot / (step : ℚ)) + ((i : ℤ) - 5), by ring⟩
  · intro i hi
    interval_cases i <;>
      simp [get_relevant_strikes, get_atm_strike, List.range_succ]
  · simp [get_relevant_strikes, get_atm_strike, List.range_succ]
  · simp [get_atm_strike, h507]
  · simp [get_relevant_strikes, h507, List.range_succ]
  · simp [generate_oi_changes, get_relevant_strikes, h25350, List.range_succ]

/-- Witness for C5 at spot 25362, step 50 and constant OI-change oracles. -/
theorem c5_relevant_strikes_witness :
    get_atm_strike (25362 : ℚ) 50 = 25350 ∧
    get_relevant_strikes (25362 : ℚ) 50 =
      [25100, 25150, 25200, 25250, 25300, 25350, 25400, 25450, 25500, 25550,
       25600] :=
  have h := c5_relevant_strikes 25362 50 (by norm_num) (fun _ => 1) (fun _ => -1)
  ⟨h.2.2.2.2.2.1, h.2.2.2.2.2.2.1⟩

/-! ## Claim C4 -/

/-- C4: `calculate_oi_signal` is total — every pair of signed OI deltas gets
exactly one of the six labels — and the decision table is: callΔ<0 ∧ putΔ>0 →
SHORT COVERING (regardless of magnitude); callΔ>0 ∧ putΔ<0 → LONG UNWINDING;
both positive → MILD BULLISH iff putΔ>callΔ, else MILD BEARISH; both negative
→ UNCERTAIN; any zero → NEUTRAL. -/
theorem c4_oi_shift_classification (c p : ℤ) :
    ((calculate_oi_signal c p).2.1 = "SHORT COVERING" ∨
     (calculate_oi_signal c p).2.1 = "LONG UNWINDING" ∨
     (calculate_oi_signal c p).2.1 = "MILD BULLISH" ∨
     (calculate_oi_signal c p).2.1 = "MILD BEARISH" ∨
     (calculate_oi_signal c p).2.1 = "UNCERTAIN" ∨
     (calculate_oi_signal c p).2.1 = "NEUTRAL") ∧
    (c < 0 → 0 < p → (calculate_oi_signal c p).2.1 = "SHORT COVERING") ∧
    (0 < c → p < 0 → (calculate_oi_signal c p).2.1 = "LONG UNWINDING") ∧
    (0 < c → 0 < p →
      (calculate_oi_signal c p).2.1 =
        if c < p then "MILD BULLISH" else "MILD BEARISH") ∧
    (c < 0 → p < 0 → (calculate_oi_signal c p).2.1 = "UNCERTAIN") ∧
    (c = 0 ∨ p = 0 → (calculate_oi_signal c p).2.1 = "NEUTRAL") := by
  unfold calculate_oi_signal
  split_ifs <;> simp_all <;> omega

/-- Witness for C4 at the concrete pair (−5, 7). -/
theorem c4_oi_shift_classification_witness :
    (calculate_oi_signal (-5) 7).2.1 = "SHORT COVERING" :=
  (c4_oi_shift_classification (-5) 7).2.1 (by norm_num) (by norm_num)

/-! ## Claim C10 -/

/-- C10: `get_bar_color_for_oi` is total and sign-determined — GREY iff the
change is 0; for a call GREEN iff negative and RED iff positive; for a put
GREEN iff positive and RED iff negative — and each generated OI-details row's
`ce_bar_color`/`pe_bar_color` is exactly this function of the row's own OI
change. -/
theorem c10_bar_color_sign (n atm step : ℤ) (ce pe : ℤ → ℤ) :
    ((get_bar_color_for_oi n true = "GREY") ↔ n = 0) ∧
    ((get_bar_color_for_oi n true = "GREEN") ↔ n < 0) ∧
    ((get_bar_color_for_oi n true = "RED") ↔ 0 < n) ∧
    ((get_bar_color_for_oi n false = "GREY") ↔ n = 0) ∧
    ((get_bar_color_for_oi n false = "GREEN") ↔ 0 < n) ∧
    ((get_bar_color_for_oi n false = "RED") ↔ n < 0) ∧
    (∀ row ∈ generate_oi_changes atm step ce pe,
      row.ce_bar_color = get_bar_color_for_oi row.ce_change true ∧
      row.pe_bar_color = get_bar_color_for_oi row.pe_change false) := by
  refine ⟨?_, ?_, ?_, ?_, ?_, ?_, ?_⟩
  · unfold get_bar_color_for_oi
    split_ifs <;> simp_all
  · unfold get_bar_color_for_oi
    split_ifs <;> simp_all
  · unfold get_bar_color_for_oi
    split_ifs <;> simp_all <;> omega
  · unfold get_bar_color_for_oi
    split_ifs <;> simp_all
  · unfold get_bar_color_for_oi
    split_ifs <;> simp_all
  · unfold get_bar_color_for_oi
    split_ifs <;> simp_all <;> omega
  · intro row hrow
    simp only [generate_oi_changes, List.mem_map] at hrow
    obtain ⟨s, _, rfl⟩ := hrow
    exact ⟨rfl, rfl⟩

/-- Witness for C10: the first generated row for ATM 25350, step 50 with
constant OI-change oracles −5 (calls) and 7 (puts). -/
theorem c10_bar_color_sign_witness :
    (⟨25100, -5, 7, "GREEN", "GREEN", false⟩ : OIRow).ce_bar_color =
      get_bar_color_for_oi (-5) true ∧
    (⟨25100, -5, 7, "GREEN", "GREEN", false⟩ : OIRow).pe_bar_color =
      get_bar_color_for_oi 7 false := by
  have h := (c10_bar_color_sign 3 25350 50 (fun _ => -5) (fun _ => 7)).2.2.2.2.2.2
  have hmem : (⟨25100, -5, 7, "GREEN", "GREEN", false⟩ : OIRow) ∈
      generate_oi_changes 25350 50 (fun _ => -5) (fun _ => 7) := by
    have h507 : pyRound ((25350 : ℚ) / 50) = 507 := by
      norm_num [pyRound, ratFloor_eq_floor]
    simp [generate_oi_changes, get_relevant_strikes, h507, List.range_succ,
      get_bar_color_for_oi]
  exact h _ hmem

/-! ## Claim C2 -/

/-- C2 counterexample: a stock record whose indicators give composite score 45
(RSI 75 → −15, two moving-average flags → +10, everything else neutral).  The
mock screener (`stock_screener.py`) assigns tier "SELL" at score 45, while the
claimed threshold table — and the live screener — assign "HOLD". -/
theorem c2_score_tier_counterexample :
    screener_score ⟨75, "NEUTRAL", true, true, false, 1⟩ 0 "NEUTRAL" = 45 ∧
    mock_recommendation 45 = "SELL" ∧
    live_recommendation 45 = "HOLD" ∧
    spec_tier 45 = "HOLD" ∧
    mock_recommendation 45 ≠ spec_tier 45 ∧
    mock_recommendation 30 = "STRONG SELL" ∧
    spec_tier 30 = "SELL" := by
  refine ⟨?_, by rfl, by rfl, by rfl, by decide, by rfl, by rfl⟩
  decide

/-- C2 amended: the composite score starts at 50, adds exactly the claimed
contributions, and is clamped to [0, 100]; the live screener's recommendation
tier follows the claimed thresholds exactly; the mock screener's tier function
agrees with the claimed table at every score except 45 (where it returns SELL
instead of HOLD) and 30 (where it returns STRONG SELL instead of SELL).
Within each screener the tier is a pure function of the score. -/
theorem c2_score_tier_amended :
    (∀ ind cp fib, 0 ≤ screener_score ind cp fib ∧ screener_score ind cp fib ≤ 100 ∧
      screener_score ind cp fib =
        max 0 (min 100 (50
          + (if ind.rsi < 30 then 15 else if ind.rsi > 70 then -15 else 0)
          + (if ind.macd = "BULLISH" then 20 else if ind.macd = "BEARISH" then -20 else 0)
          + (if ind.above_20dma then 5 else 0)
          + (if ind.above_50dma then 5 else 0)
          + (if ind.above_200dma then 5 else 0)
          + (if ind.volume_surge > 2 then (if cp > 0 then 10 else -10) else 0)
          + (if fib = "BULLISH" then 10 else if fib = "BEARISH" then -10 else 0)))) ∧
    (∀ s : ℤ, live_recommendation s = spec_tier s) ∧
    (∀ s : ℤ, mock_recommendation s = spec_tier s ↔ (s ≠ 45 ∧ s ≠ 30)) := by
  refine ⟨?_, fun s => rfl, ?_⟩
  · intro ind cp fib
    rw [screener_score_eq]
    refine ⟨by omega, by omega, rfl⟩
  · intro s
    unfold mock_recommendation spec_tier
    split_ifs <;> simp_all <;> omega

/-! ## Claim C6 -/

/-- C6: the screener cache is not read-through.  Two `get_screener_data` calls
one second apart, each with a successful live bulk fetch, run the bulk
upstream fetch twice (not once) and return the two fresh upstream payloads
(not identical results) — even though the never-called `_should_refresh`
reports the cache as still fresh at the second call. -/
theorem c6_screener_cache_bug :
    (get_screener_data [1, 2] [] [] ⟨[], none⟩ 0).bulk_fetches +
      (get_screener_data [3, 4] [] []
        (get_screener_data [1, 2] [] [] ⟨[], none⟩ 0).state 1).bulk_fetches = 2 ∧
    should_refresh (get_screener_data [1, 2] [] [] ⟨[], none⟩ 0).state 1 = false ∧
    (get_screener_data [3, 4] [] []
        (get_screener_data [1, 2] [] [] ⟨[], none⟩ 0).state 1).stocks = [3, 4] ∧
    (get_screener_data [1, 2] [] [] ⟨[], none⟩ 0).stocks = [1, 2] := by
  refine ⟨rfl, ?_, rfl, rfl⟩
  decide

/-! ## Claim C7 -/

/-- C7 counterexample: Saturday 2031-02-01 at 10:00 IST (weekday 5).  The
claim's annual budget-day exception says the market is OPEN, and the live
dashboard indeed reports OPEN, but the mock provider's
`_is_market_open` — whose exception is hard-coded to the single date
2026-02-01 — reports the dashboard snapshot CLOSED. -/
theorem c7_market_status_counterexample :
    live_market_status ⟨5, 1, 2, 2031, 36000⟩ = "OPEN" ∧
    mock_is_market_open ⟨5, 1, 2, 2031, 36000⟩ = false ∧
    mock_market_status ⟨5, 1, 2, 2031, 36000⟩ = "CLOSED" := by
  refine ⟨?_, by decide, ?_⟩ <;> decide

/-- C7 amended: the live dashboard's `market_status` is OPEN exactly when the
IST time of day is within 09:15–15:30 and the day is a weekday or February 1
of any year; the mock provider's snapshot is OPEN under the same rule except
that its budget-day exception holds only on the single date 2026-02-01. -/
theorem c7_market_status_amended (now : ISTNow) :
    (live_market_status now = "OPEN" ↔
      ((now.weekday < 5 ∨ (now.day = 1 ∧ now.month = 2)) ∧
       (9 * 3600 + 15 * 60 ≤ now.secondsOfDay ∧
        now.secondsOfDay ≤ 15 * 3600 + 30 * 60))) ∧
    (mock_market_status now = "OPEN" ↔
      ((now.weekday ≤ 4 ∨ (now.year = 2026 ∧ now.month = 2 ∧ now.day = 1)) ∧
       (9 * 3600 + 15 * 60 ≤ now.secondsOfDay ∧
        now.secondsOfDay ≤ 15 * 3600 + 30 * 60))) := by
  constructor
  · have h : live_market_active now = true ↔
        ((now.weekday < 5 ∨ (now.day = 1 ∧ now.month = 2)) ∧
         (9 * 3600 + 15 * 60 ≤ now.secondsOfDay ∧
          now.secondsOfDay ≤ 15 * 3600 + 30 * 60)) := by
      simp [live_market_active]
    unfold live_market_status
    split_ifs with hb <;> simp_all
  · have h : mock_is_market_open now = true ↔
        ((now.weekday ≤ 4 ∨ (now.year = 2026 ∧ now.month = 2 ∧ now.day = 1)) ∧
         (9 * 3600 + 15 * 60 ≤ now.secondsOfDay ∧
          now.secondsOfDay ≤ 15 * 3600 + 30 * 60)) := by
      unfold mock_is_market_open
      dsimp only
      split_ifs with hb <;>
        simp only [decide_eq_true_eq, decide_eq_false_iff_not, Bool.false_eq_true,
          false_iff, not_and, not_not] at hb ⊢ <;>
        omega
    unfold mock_market_status
    split_ifs with hb <;> simp_all

/-! ## Claim C1 -/

/-- C1 counterexample: when only the final NSE/jugaad fallback delivers a
positive price (100), the resolver returns that price and change but the
source tag is not set by the winning source — `data_source` stays `none` — so
the first source returning price > 0 does not determine the source tag. -/
theorem c1_price_resolver_counterexample :
    (resolve_dashboard_price none none none (some ⟨100, 2, 1⟩)).price = 100 ∧
    (resolve_dashboard_price none none none (some ⟨100, 2, 1⟩)).change = 2 ∧
    (resolve_dashboard_price none none none (some ⟨100, 2, 1⟩)).data_source = none := by
  refine ⟨?_, ?_, ?_⟩ <;>
    simp [resolve_dashboard_price, tryTagged, tryUntagged, resolveStart]

/-- C1 amended: the four sources are consulted strictly sequentially in
priority order, each only while the accumulated price is still 0; the first
source delivering a positive price determines the returned price, change and
change_pct, no later source is consulted, and for the Moneycontrol /
Google Finance / Yahoo sources the winner also sets the source tag — but a
success of the final NSE fallback leaves `data_source` as the earlier steps
left it; when every source is unavailable or delivers price 0, the resolver
returns a degraded result with price 0 (and, being a total function, raises
nothing). -/
theorem c1_price_resolver_amended (mc gf yf nse : Option Quote) :
    (∀ q, mc = some q → 0 < q.price →
      resolve_dashboard_price mc gf yf nse =
        ⟨q.price, q.change, q.change_pct, some "moneycontrol",
         ["moneycontrol"]⟩) ∧
    ((∀ q, mc = some q → q.price = 0) → ∀ q, gf = some q → 0 < q.price →
      resolve_dashboard_price mc gf yf nse =
        ⟨q.price, q.change, q.change_pct, some "google_finance",
         ["moneycontrol", "google_finance"]⟩) ∧
    ((∀ q, mc = some q → q.price = 0) → (∀ q, gf = some q → q.price = 0) →
      ∀ q, yf = some q → 0 < q.price →
      resolve_dashboard_price mc gf yf nse =
        ⟨q.price, q.change, q.change_pct, some "yahoo_finance",
         ["moneycontrol", "google_finance", "yahoo_finance"]⟩) ∧
    ((∀ q, mc = some q → q.price = 0) → (∀ q, gf = some q → q.price = 0) →
      (∀ q, yf = some q → q.price = 0) → ∀ q, nse = some q → 0 < q.price →
      (resolve_dashboard_price mc gf yf nse).price = q.price ∧
      (resolve_dashboard_price mc gf yf nse).change = q.change ∧
      (resolve_dashboard_price mc gf yf nse).change_pct = q.change_pct ∧
      (resolve_dashboard_price mc gf yf nse).consulted =
        ["moneycontrol", "google_finance", "yahoo_finance", "nse_jugaad"] ∧
      (resolve_dashboard_price mc gf yf nse).data_source =
        (tryTagged (tryTagged (tryTagged resolveStart "moneycontrol" mc)
          "google_finance" gf) "yahoo_finance" yf).data_source) ∧
    ((∀ q, mc = some q → q.price = 0) → (∀ q, gf = some q → q.price = 0) →
      (∀ q, yf = some q → q.price = 0) → (∀ q, nse = some q → q.price = 0) →
      (resolve_dashboard_price mc gf yf nse).price = 0 ∧
      (resolve_dashboard_price mc gf yf nse).consulted =
        ["moneycontrol", "google_finance", "yahoo_finance", "nse_jugaad"]) := by
  refine ⟨?_, ?_, ?_, ?_, ?_⟩
  · intro q hq hpos
    subst hq
    unfold resolve_dashboard_price
    dsimp only
    rw [tryTagged_step _ _ _ rfl]
    rw [tryTagged_skip _ "google_finance" gf (by simpa using hpos.ne')]
    rw [tryTagged_skip _ "yahoo_finance" yf (by simpa using hpos.ne')]
    rw [tryUntagged_skip _ "nse_jugaad" nse (by simpa using hpos.ne')]
    simp [resolveStart]
  · intro hmc q hq hpos
    subst hq
    obtain ⟨h1p, h1c⟩ := tryTagged_fail resolveStart "moneycontrol" mc rfl hmc
    unfold resolve_dashboard_price
    dsimp only
    rw [tryTagged_step _ _ _ h1p]
    rw [tryTagged_skip _ "yahoo_finance" yf (by simpa using hpos.ne')]
    rw [tryUntagged_skip _ "nse_jugaad" nse (by simpa using hpos.ne')]
    rw [h1c]
    simp [resolveStart]
  · intro hmc hgf q hq hpos
    subst hq
    obtain ⟨h1p, h1c⟩ := tryTagged_fail resolveStart "moneycontrol" mc rfl hmc
    obtain ⟨h2p, h2c⟩ :=
      tryTagged_fail (tryTagged resolveStart "moneycontrol" mc)
        "google_finance" gf h1p hgf
    unfold resolve_dashboard_price
    dsimp only
    rw [tryTagged_step _ _ _ h2p]
    rw [tryUntagged_skip _ "nse_jugaad" nse (by simpa using hpos.ne')]
    rw [h2c, h1c]
    simp [resolveStart]
  · intro hmc hgf hyf q hq hpos
    subst hq
    obtain ⟨h1p, h1c⟩ := tryTagged_fail resolveStart "moneycontrol" mc rfl hmc
    obtain ⟨h2p, h2c⟩ :=
      tryTagged_fail (tryTagged resolveStart "moneycontrol" mc)
        "google_finance" gf h1p hgf
    obtain ⟨h3p, h3c⟩ :=
      tryTagged_fail (tryTagged (tryTagged resolveStart "moneycontrol" mc)
        "google_finance" gf) "yahoo_finance" yf h2p hyf
    unfold resolve_dashboard_price
    dsimp only
    rw [tryUntagged_step _ _ _ h3p]
    rw [h3c, h2c, h1c]
    simp [resolveStart]
  · intro hmc hgf hyf hnse
    obtain ⟨h1p, h1c⟩ := tryTagged_fail resolveStart "moneycontrol" mc rfl hmc
    obtain ⟨h2p, h2c⟩ :=
      tryTagged_fail (tryTagged resolveStart "moneycontrol" mc)
        "google_finance" gf h1p hgf
    obtain ⟨h3p, h3c⟩ :=
      tryTagged_fail (tryTagged (tryTagged resolveStart "moneycontrol" mc)
        "google_finance" gf) "yahoo_finance" yf h2p hyf
    obtain ⟨h4p, h4c⟩ :=
      tryUntagged_fail (tryTagged (tryTagged (tryTagged resolveStart
        "moneycontrol" mc) "google_finance" gf) "yahoo_finance" yf)
        "nse_jugaad" nse h3p hnse
    unfold resolve_dashboard_price
    dsimp only
    rw [h4c, h3c, h2c, h1c]
    exact ⟨h4p, by simp [resolveStart]⟩

/-- Witness for C1: the spec's scenario — first source unavailable, second
delivers 142.5 — resolves to the second source's quote with its tag, and the
third source is never consulted. -/
theorem c1_price_resolver_amended_witness :
    resolve_dashboard_price none (some ⟨285/2, 5, 1⟩) (some ⟨999, 0, 0⟩) none =
      ⟨285/2, 5, 1, some "google_finance", ["moneycontrol", "google_finance"]⟩ := by
  have h := (c1_price_resolver_amended none (some ⟨285/2, 5, 1⟩)
    (some ⟨999, 0, 0⟩) none).2.1
  exact h (fun q hq => by cases hq) ⟨285/2, 5, 1⟩ rfl (by norm_num)

/-! ## Claim C8 -/

/-- C8 counterexample: two screener entries at price 400 violate the claimed
formulas.  A BUY-tier stock whose price is refreshed to 400 gets entry 398,
target 412, stoploss 394 and the hard-coded risk-reward `"1:3.0"`, although
reward/risk = (412−398)/(398−394) = 3.5.  A BUY-tier entry of the mock
screener at price 400 gets entry 399.2 (price×0.998, not the claimed
price×0.995 = 398) and the hard-coded risk-reward `"1:2"`, although
reward/risk of its own levels rounds to 2.5; its HOLD entries carry no levels
at all instead of entry = target = stoploss = price. -/
theorem c8_trading_levels_counterexample :
    refresh_trading_levels 400 "BUY" (trading_levels 100 "BUY") =
      ⟨398, 412, 394, some 3⟩ ∧
    round1 (((412 : ℚ) - 398) / ((398 : ℚ) - 394)) = 7/2 ∧
    some (3 : ℚ) ≠ some (round1 (((412 : ℚ) - 398) / ((398 : ℚ) - 394))) ∧
    mock_trading_levels 400 "BUY" = ⟨some (1996/5), some 412, some 394, some 2⟩ ∧
    (1996/5 : ℚ) ≠ round2 (400 * (995/1000)) ∧
    round1 (((412 : ℚ) - 1996/5) / ((1996/5 : ℚ) - 394)) = 5/2 ∧
    some (2 : ℚ) ≠ some (round1 (((412 : ℚ) - 1996/5) / ((1996/5 : ℚ) - 394))) ∧
    mock_trading_levels 400 "HOLD" = ⟨none, none, none, none⟩ := by
  refine ⟨?_, ?_, ?_, ?_, ?_, ?_, ?_, ?_⟩
  · simp only [refresh_trading_levels]
    norm_num [round2, pyRound, ratFloor_eq_floor]
  · norm_num [round1, pyRound, ratFloor_eq_floor]
  · norm_num [round1, pyRound, ratFloor_eq_floor]
  · simp only [mock_trading_levels]
    norm_num [round2, pyRound, ratFloor_eq_floor]
  · norm_num [round2, pyRound, ratFloor_eq_floor]
  · norm_num [round1, pyRound, ratFloor_eq_floor]
  · norm_num [round1, pyRound, ratFloor_eq_floor]
  · rfl

/-- C8 amended: in the live screener's `_process_stock`, BUY-tier levels are
price×0.995 / ×1.03 / ×0.985 rounded to 2 decimals, SELL-tier levels
price×1.005 / ×0.97 / ×1.015 rounded to 2 decimals, HOLD entry = target =
stoploss = price with risk-reward "N/A", and risk_reward is reward/risk
(computed from the rounded levels) rounded to 1 decimal when the risk is
positive; in the price-refresh pass, BUY/SELL levels are recomputed from the
refreshed price but risk_reward is the constant "1:3.0", and any other tier
keeps its previous levels unchanged; in the mock screener's
`_generate_stock_data` (whose entries also serve as the MOCK fallback), BUY
entry is price×0.998 and SELL entry price×1.002 rounded to 2 decimals (targets
and stoplosses as in the live formulas), risk_reward is the constant "1:2",
and HOLD has no levels at all. -/
theorem c8_trading_levels_amended (p : ℚ) (old : Levels) :
    (∀ tier, tier = "STRONG BUY" ∨ tier = "BUY" →
      trading_levels p tier =
        ⟨round2 (p * (995/1000)), round2 (p * (103/100)), round2 (p * (985/1000)),
         if round2 (p * (995/1000)) - round2 (p * (985/1000)) > 0 then
           some (round1 ((round2 (p * (103/100)) - round2 (p * (995/1000))) /
             (round2 (p * (995/1000)) - round2 (p * (985/1000)))))
         else none⟩) ∧
    (∀ tier, tier = "STRONG SELL" ∨ tier = "SELL" →
      trading_levels p tier =
        ⟨round2 (p * (1005/1000)), round2 (p * (97/100)), round2 (p * (1015/1000)),
         if round2 (p * (1015/1000)) - round2 (p * (1005/1000)) > 0 then
           some (round1 ((round2 (p * (1005/1000)) - round2 (p * (97/100))) /
             (round2 (p * (1015/1000)) - round2 (p * (1005/1000)))))
         else none⟩) ∧
    trading_levels p "HOLD" = ⟨round2 p, round2 p, round2 p, none⟩ ∧
    (∀ tier, tier = "STRONG BUY" ∨ tier = "BUY" →
      refresh_trading_levels p tier old =
        ⟨round2 (p * (995/1000)), round2 (p * (103/100)),
         round2 (p * (985/1000)), some 3⟩) ∧
    (∀ tier, tier = "STRONG SELL" ∨ tier = "SELL" →
      refresh_trading_levels p tier old =
        ⟨round2 (p * (1005/1000)), round2 (p * (97/100)),
         round2 (p * (1015/1000)), some 3⟩) ∧
    refresh_trading_levels p "HOLD" old = old ∧
    (∀ tier, tier = "STRONG BUY" ∨ tier = "BUY" →
      mock_trading_levels p tier =
        ⟨some (round2 (p * (998/1000))), some (round2 (p * (103/100))),
         some (round2 (p * (985/1000))), some 2⟩) ∧
    (∀ tier, tier = "STRONG SELL" ∨ tier = "SELL" →
      mock_trading_levels p tier =
        ⟨some (round2 (p * (1002/1000))), some (round2 (p * (97/100))),
         some (round2 (p * (1015/1000))), some 2⟩) ∧
    mock_trading_levels p "HOLD" = ⟨none, none, none, none⟩ := by
  refine ⟨?_, ?_, ?_, ?_, ?_, ?_, ?_, ?_, ?_⟩
  · rintro tier (rfl | rfl) <;> rfl
  · rintro tier (rfl | rfl) <;> rfl
  · rfl
  · rintro tier (rfl | rfl) <;> rfl
  · rintro tier (rfl | rfl) <;> rfl
  · rfl
  · rintro tier (rfl | rfl) <;> rfl
  · rintro tier (rfl | rfl) <;> rfl
  · rfl

/-- Witness for C8 at price 200, tier BUY: the live screener gives entry 199,
target 206, stoploss 197, risk-reward `"1:3.5"`; the mock screener gives
entry 199.6 and risk-reward `"1:2"`. -/
theorem c8_trading_levels_amended_witness :
    trading_levels 200 "BUY" = ⟨199, 206, 197, some (7/2)⟩ ∧
    mock_trading_levels 200 "BUY" = ⟨some (998/5), some 206, some 197, some 2⟩ := by
  constructor
  · have h := (c8_trading_levels_amended 200 ⟨0, 0, 0, none⟩).1 "BUY" (Or.inr rfl)
    rw [h]
    norm_num [round2, round1, pyRound, ratFloor_eq_floor]
  · have h := (c8_trading_levels_amended 200
      ⟨0, 0, 0, none⟩).2.2.2.2.2.2.1 "BUY" (Or.inr rfl)
    rw [h]
    norm_num [round2, pyRound, ratFloor_eq_floor]

/-! ## Claim C9 -/

/-- C9 counterexample: for the 15 prices [10, 11, 9, 9, …, 9] the trailing-14
averages are avg_gain = 1/14 and avg_loss = 1/7, the claimed formula value is
100 − 100/(1 + (1/14)/(1/7)) = 100/3, but `calculate_rsi` returns the rounded
value 33.3 ≠ 100/3. -/
theorem c9_rsi_counterexample :
    calculate_rsi [10, 11, 9, 9, 9, 9, 9, 9, 9, 9, 9, 9, 9, 9, 9] 14 = 333/10 ∧
    rsi_avg_gain [10, 11, 9, 9, 9, 9, 9, 9, 9, 9, 9, 9, 9, 9, 9] 14 = 1/14 ∧
    rsi_avg_loss [10, 11, 9, 9, 9, 9, 9, 9, 9, 9, 9, 9, 9, 9, 9] 14 = 1/7 ∧
    (100 : ℚ) - 100 / (1 + (1/14 : ℚ) / (1/7 : ℚ)) = 100/3 ∧
    (333/10 : ℚ) ≠ 100/3 := by
  have hg : rsi_avg_gain [10, 11, 9, 9, 9, 9, 9, 9, 9, 9, 9, 9, 9, 9, 9] 14 = 1/14 := by
    norm_num [rsi_avg_gain, rsi_deltas, List.zipWith]
  have hl : rsi_avg_loss [10, 11, 9, 9, 9, 9, 9, 9, 9, 9, 9, 9, 9, 9, 9] 14 = 1/7 := by
    norm_num [rsi_avg_loss, rsi_deltas, List.zipWith]
  refine ⟨?_, hg, hl, by norm_num, by norm_num⟩
  rw [calculate_rsi, if_neg (by norm_num), if_neg (by rw [hl]; norm_num)]
  rw [hg, hl]
  norm_num [round1, pyRound, ratFloor_eq_floor]

/-- C9 amended: `calculate_rsi` returns the neutral default 50 when fewer than
period+1 prices are given; with enough prices it returns 100 whenever the
trailing-period average loss is 0 (in particular 100, never NaN, on
`[10]*20`), and otherwise returns 100 − 100/(1 + avgGain/avgLoss) rounded to
one decimal place. -/
theorem c9_rsi_amended (prices : List ℚ) (period : ℕ) :
    (prices.length < period + 1 → calculate_rsi prices period = 50) ∧
    (¬ prices.length < period + 1 →
      (rsi_avg_loss prices period = 0 → calculate_rsi prices period = 100) ∧
      (rsi_avg_loss prices period ≠ 0 →
        calculate_rsi prices period =
          round1 (100 - 100 /
            (1 + rsi_avg_gain prices period / rsi_avg_loss prices period)))) ∧
    calculate_rsi (List.replicate 20 (10 : ℚ)) = 100 := by
  refine ⟨?_, ?_, ?_⟩
  · intro h
    simp [calculate_rsi, h]
  · intro h
    constructor
    · intro h0
      simp [calculate_rsi, h, h0]
    · intro h0
      simp [calculate_rsi, h, h0]
  · have hz : rsi_avg_loss (List.replicate 20 (10 : ℚ)) 14 = 0 := by
      norm_num [rsi_avg_loss, rsi_deltas, List.replicate, List.zipWith]
    have hlen : ¬ (List.replicate 20 (10 : ℚ)).length < 14 + 1 := by simp
    rw [calculate_rsi, if_neg hlen, if_pos hz]

/-- Witness for C9: a 2-price list falls back to 50, and the 15-price list of
the counterexample takes the rounded-formula branch. -/
theorem c9_rsi_amended_witness :
    calculate_rsi [(1 : ℚ), 2] 14 = 50 ∧
    calculate_rsi [10, 11, 9, 9, 9, 9, 9, 9, 9, 9, 9, 9, 9, 9, 9] 14 =
      round1 (100 - 100 /
        (1 + rsi_avg_gain [10, 11, 9, 9, 9, 9, 9, 9, 9, 9, 9, 9, 9, 9, 9] 14 /
          rsi_avg_loss [10, 11, 9, 9, 9, 9, 9, 9, 9, 9, 9, 9, 9, 9, 9] 14)) := by
  constructor
  · exact (c9_rsi_amended [(1 : ℚ), 2] 14).1 (by norm_num)
  · refine (((c9_rsi_amended [10, 11, 9, 9, 9, 9, 9, 9, 9, 9, 9, 9, 9, 9, 9]
      14).2.1 (by norm_num)).2 ?_)
    norm_num [rsi_avg_loss, rsi_deltas, List.zipWith]

end OptionSense
